import Mathlib

/-!
Verification of the outbound message delivery pipeline of
src/whatsapp_webhook.py: the functions split_message and
send_whatsapp_message and the class MessageRateLimiter.

Strings are modelled as List Char, timestamps as Nat (seconds).
Python str.split(sep), str.strip(), str.endswith and f-string decimal
formatting are modelled by the helper functions below, keeping the
source's exact semantics (split keeps empty fragments, strip removes
ASCII whitespace from both ends).
-/

/-- Python whitespace as removed by str.strip(): the exact code-point
set of CPython's str.isspace() — tab through carriage return (9-13),
the separator controls 28-31, space (32), next line (133), no-break
space (160), ogham space mark, the en-quad through hair-space block
(0x2000-0x200A), line separator, paragraph separator, narrow no-break
space, medium mathematical space, and ideographic space. -/
def isPySpace (c : Char) : Bool :=
  (9 ≤ c.toNat && c.toNat ≤ 13) || (28 ≤ c.toNat && c.toNat ≤ 31) || c.toNat = 32 ||
  c.toNat = 133 || c.toNat = 160 || c.toNat = 0x1680 ||
  (0x2000 ≤ c.toNat && c.toNat ≤ 0x200A) || c.toNat = 0x2028 || c.toNat = 0x2029 ||
  c.toNat = 0x202F || c.toNat = 0x205F || c.toNat = 0x3000

/-- Python str.strip(): drop whitespace from both ends. -/
def pyStrip (l : List Char) : List Char :=
  ((l.dropWhile isPySpace).reverse.dropWhile isPySpace).reverse

/-- Prepend a character to the first fragment of a fragment list. -/
def consHead (c : Char) : List (List Char) → List (List Char)
  | [] => [[c]]
  | f :: fs => (c :: f) :: fs

/-- Python message.split(". "): scan left to right, cutting at each
occurrence of the two-character separator, keeping empty fragments. -/
def splitDotSpace : List Char → List (List Char)
  | [] => [[]]
  | [c] => [[c]]
  | c1 :: c2 :: rest =>
    if c1 = '.' ∧ c2 = ' ' then [] :: splitDotSpace rest
    else consHead c1 (splitDotSpace (c2 :: rest))

/-- Python sentence.split(" "): cut at every single space, keeping
empty fragments. -/
def splitSpace : List Char → List (List Char)
  | [] => [[]]
  | c :: rest => if c = ' ' then [] :: splitSpace rest else consHead c (splitSpace rest)

/-- Python sentence.endswith("."). -/
def endsWithDot (l : List Char) : Bool :=
  match l.getLast? with
  | some c => c = '.'
  | none => false

/-- Inner word loop of split_message: one step of the fold over the words
of an over-long sentence, carrying (chunks, current_chunk) as a pair.
Mirrors the source: the overflow check includes the joining space, a
non-empty buffer is flushed (stripped), and an over-long word is cut at
max_length with the remainder becoming the new buffer. -/
def packWord (max_length : Nat) (st : List (List Char) × List Char) (w : List Char) :
    List (List Char) × List Char :=
  if (st.2 ++ ' ' :: w).length > max_length then
    if st.2 ≠ [] then (st.1 ++ [pyStrip st.2], w)
    else (st.1 ++ [w.take max_length], w.drop max_length)
  else (st.1, if st.2 = [] then w else st.2 ++ ' ' :: w)

/-- The per-fragment sentence value: the source re-appends a period
exactly when the fragment does not already end in a period and is not
equal BY VALUE (as in the source) to the last fragment. -/
def pySentence (last sraw : List Char) : List Char :=
  if endsWithDot sraw = false ∧ sraw ≠ last then sraw ++ ['.'] else sraw

/-- Outer sentence loop of split_message: one step of the fold over the
fragments of message.split(". "), carrying (chunks, current_chunk).
Mirrors the source: the overflow check concatenates buffer and sentence
WITHOUT the joining space that the else branch then inserts. -/
def packSentence (max_length : Nat) (last : List Char)
    (st : List (List Char) × List Char) (sraw : List Char) :
    List (List Char) × List Char :=
  if (st.2 ++ pySentence last sraw).length > max_length then
    if st.2 ≠ [] then (st.1 ++ [pyStrip st.2], pySentence last sraw)
    else (splitSpace (pySentence last sraw)).foldl (packWord max_length) (st.1, st.2)
  else (st.1, if st.2 = [] then pySentence last sraw else st.2 ++ ' ' :: pySentence last sraw)

/-- The trailing flush of split_message: append the stripped buffer when
it is non-empty. -/
def flushTail (st : List (List Char) × List Char) : List (List Char) :=
  if st.2 ≠ [] then st.1 ++ [pyStrip st.2] else st.1

/-- split_message from src/whatsapp_webhook.py: sentence-boundary split
with word-level and forced character-level fallbacks. -/
def split_message (message : List Char) (max_length : Nat) : List (List Char) :=
  if message.length ≤ max_length then [message]
  else
    flushTail ((splitDotSpace message).foldl
      (packSentence max_length ((splitDotSpace message).getLast?.getD [])) ([], []))

/-- One day, in seconds: timedelta(days=1). -/
def oneDay : Nat := 86400

/-- State of the MessageRateLimiter class. -/
structure MessageRateLimiter where
  daily_limit : Nat
  message_count : Nat
  reset_time : Nat
  deriving DecidableEq, Repr

/-- MessageRateLimiter.can_send_message: lazily roll the window when now
has passed reset_time, then report whether the count is under the daily
limit. Returns the answer and the (possibly reset) state. -/
def can_send_message (now : Nat) (s : MessageRateLimiter) : Bool × MessageRateLimiter :=
  if now > s.reset_time then
    let s2 : MessageRateLimiter :=
      { s with message_count := 0, reset_time := now + oneDay }
    (decide (s2.message_count < s2.daily_limit), s2)
  else
    (decide (s.message_count < s.daily_limit), s)

/-- MessageRateLimiter.increment_count. -/
def increment_count (s : MessageRateLimiter) : MessageRateLimiter :=
  { s with message_count := s.message_count + 1 }

/-- Decimal digits of a natural number, as written by a Python f-string. -/
def natDecimal (n : Nat) : List Char := Nat.toDigits 10 n

/-- The part indicator f"[Part {i}/{n}]\n". -/
def part_indicator (i n : Nat) : List Char :=
  "[Part ".data ++ natDecimal i ++ ['/'] ++ natDecimal n ++ [']', '\n']

/-- The per-chunk body built by send_whatsapp_message for the chunk at
0-based index i of a batch of n chunks: part indicator for multi-part
batches, with the body (never the indicator) truncated to an ellipsis
when the prefixed message would exceed 1500 characters. -/
def chunk_with_indicator (n i : Nat) (chunk : List Char) : List Char :=
  if n > 1 then
    if (part_indicator (i + 1) n ++ chunk).length > 1500 then
      part_indicator (i + 1) n ++
        (chunk.take (1500 - (part_indicator (i + 1) n).length - 3) ++ "...".data)
    else part_indicator (i + 1) n ++ chunk
  else chunk

/-- Python to.startswith("whatsapp:"). -/
def startsWithWhatsapp : List Char → Bool
  | 'w' :: 'h' :: 'a' :: 't' :: 's' :: 'a' :: 'p' :: 'p' :: ':' :: _ => true
  | _ => false

/-- Destination normalization at the top of send_whatsapp_message. -/
def normalize_to (dst : List Char) : List Char :=
  if startsWithWhatsapp dst then dst else "whatsapp:".data ++ dst

/-- Result of one send_whatsapp_message call: the boolean the function
returns, the normalized destination, the bodies handed to the channel in
order, and the final limiter state. -/
structure SendOutcome where
  result : Bool
  dest : List Char
  sent : List (List Char)
  limiter : MessageRateLimiter
  deriving DecidableEq, Repr

/-- The chunk loop of send_whatsapp_message. The channel argument models
twilio_client.messages.create: false means the call raises, which the
enclosing try/except turns into a False return (no increment, loop
aborted). A false answer from can_send_message also aborts with False.
The inter-part sleep has no observable effect here and is omitted. -/
def send_loop (channel : List Char → Bool) (now : Nat) (dest : List Char) (n : Nat) :
    List (List Char) → Nat → List (List Char) → MessageRateLimiter → SendOutcome
  | [], _, sent, lim => ⟨true, dest, sent, lim⟩
  | chunk :: rest, i, sent, lim =>
    if (can_send_message now lim).1 then
      if channel (chunk_with_indicator n i chunk) then
        send_loop channel now dest n rest (i + 1) (sent ++ [chunk_with_indicator n i chunk])
          (increment_count (can_send_message now lim).2)
      else ⟨false, dest, sent, (can_send_message now lim).2⟩
    else ⟨false, dest, sent, (can_send_message now lim).2⟩

/-- send_whatsapp_message from src/whatsapp_webhook.py, with the limiter
state passed explicitly (the source uses the module-level singleton) and
the current time fixed for the call. -/
def send_whatsapp_message (channel : List Char → Bool) (now : Nat)
    (lim : MessageRateLimiter) (dst message : List Char) : SendOutcome :=
  send_loop channel now (normalize_to dst) (split_message message 1400).length
    (split_message message 1400) 0 [] lim

/-- A channel on which every send succeeds. -/
def chOK : List Char → Bool := fun _ => true

/-- A channel on which every send raises. -/
def chFail : List Char → Bool := fun _ => false

/-- The destination used in the concrete scenarios. -/
def dst0 : List Char := "+15550001111".data

/-- A 700-character sentence of letters a. -/
def sentA : List Char := 'a' :: List.replicate 699 'a'

/-- A 700-character sentence of letters b. -/
def sentB : List Char := 'b' :: List.replicate 699 'b'

/-- A 700-character sentence of letters c. -/
def sentC : List Char := 'c' :: List.replicate 699 'c'

/-- A 2104-character message of three 700-character sentences separated
by period-space: splits into three chunks under max_length 1400. -/
def msg3 : List Char := sentA ++ '.' :: ' ' :: (sentB ++ '.' :: ' ' :: sentC)

/-- A fresh limiter whose window has not expired at time 0: count 8 of
daily limit 9. -/
def lim8 : MessageRateLimiter := ⟨9, 8, 1000⟩

/-- Same limiter but already at the daily limit. -/
def lim9 : MessageRateLimiter := ⟨9, 9, 1000⟩

/-! ### Helper lemmas about the string primitives -/

lemma consHead_cons (c : Char) (f : List Char) (fs : List (List Char)) :
    consHead c (f :: fs) = (c :: f) :: fs := rfl

lemma splitDotSpace_noDot (l : List Char) (h : ∀ c ∈ l, c ≠ '.') :
    splitDotSpace l = [l] := by
  induction l with
  | nil => rfl
  | cons c t ih =>
    cases t with
    | nil => rfl
    | cons d t2 =>
      have hc : c ≠ '.' := h c (by simp)
      have ht : ∀ x ∈ d :: t2, x ≠ '.' := fun x hx => h x (by simp [hx])
      rw [splitDotSpace.eq_3, if_neg (fun hif => hc hif.1), ih ht, consHead_cons]

lemma splitDotSpace_sep (l r : List Char) (h : ∀ c ∈ l, c ≠ '.') :
    splitDotSpace (l ++ '.' :: ' ' :: r) = l :: splitDotSpace r := by
  induction l with
  | nil =>
    rw [List.nil_append, splitDotSpace.eq_3, if_pos ⟨rfl, rfl⟩]
  | cons c t ih =>
    have hc : c ≠ '.' := h c (by simp)
    have ht : ∀ x ∈ t, x ≠ '.' := fun x hx => h x (by simp [hx])
    cases t with
    | nil =>
      rw [List.cons_append, List.nil_append, splitDotSpace.eq_3,
        if_neg (fun hif => hc hif.1), splitDotSpace.eq_3, if_pos ⟨rfl, rfl⟩, consHead_cons]
    | cons d t2 =>
      have ih2 := ih ht
      rw [List.cons_append] at ih2
      rw [List.cons_append, List.cons_append, splitDotSpace.eq_3,
        if_neg (fun hif => hc hif.1), ih2, consHead_cons]

lemma splitSpace_noSpace (l : List Char) (h : ∀ c ∈ l, c ≠ ' ') :
    splitSpace l = [l] := by
  induction l with
  | nil => rfl
  | cons c t ih =>
    have hc : c ≠ ' ' := h c (by simp)
    have ht : ∀ x ∈ t, x ≠ ' ' := fun x hx => h x (by simp [hx])
    rw [splitSpace.eq_2, if_neg hc, ih ht, consHead_cons]

lemma dropWhile_isPySpace_eq_self (l : List Char) (h : ∀ c ∈ l, isPySpace c = false) :
    l.dropWhile isPySpace = l := by
  cases l with
  | nil => rfl
  | cons c t => simp [List.dropWhile_cons, h c (by simp)]

lemma pyStrip_eq_self (l : List Char) (h : ∀ c ∈ l, isPySpace c = false) :
    pyStrip l = l := by
  unfold pyStrip
  rw [dropWhile_isPySpace_eq_self l h,
    dropWhile_isPySpace_eq_self l.reverse (fun c hc => h c (List.mem_reverse.mp hc)),
    List.reverse_reverse]

lemma getLast?_cons_replicate (n : Nat) (c : Char) :
    (c :: List.replicate n c).getLast? = some c := by
  induction n with
  | zero => rfl
  | succ m ih => rw [List.replicate_succ, List.getLast?_cons_cons]; exact ih

lemma endsWithDot_cons_replicate (n : Nat) (c : Char) (h : c ≠ '.') :
    endsWithDot (c :: List.replicate n c) = false := by
  unfold endsWithDot
  rw [getLast?_cons_replicate]
  simp [h]

lemma mem_cons_replicate {c x : Char} {n : Nat} (h : x ∈ c :: List.replicate n c) :
    x = c := by
  simp [List.mem_replicate] at h
  tauto

/-! ### Computation of the three-sentence scenario -/

lemma sentA_mem {x : Char} (hx : x ∈ sentA) : x = 'a' := mem_cons_replicate hx

lemma sentB_mem {x : Char} (hx : x ∈ sentB) : x = 'b' := mem_cons_replicate hx

lemma sentC_mem {x : Char} (hx : x ∈ sentC) : x = 'c' := mem_cons_replicate hx

lemma sentA_noDot : ∀ c ∈ sentA, c ≠ '.' := by
  intro c hc
  rw [sentA_mem hc]
  decide

lemma sentB_noDot : ∀ c ∈ sentB, c ≠ '.' := by
  intro c hc
  rw [sentB_mem hc]
  decide

lemma sentC_noDot : ∀ c ∈ sentC, c ≠ '.' := by
  intro c hc
  rw [sentC_mem hc]
  decide

lemma sentA_length : sentA.length = 700 := by
  show ('a' :: List.replicate 699 'a').length = 700
  rw [List.length_cons, List.length_replicate]

lemma sentB_length : sentB.length = 700 := by
  show ('b' :: List.replicate 699 'b').length = 700
  rw [List.length_cons, List.length_replicate]

lemma sentC_length : sentC.length = 700 := by
  show ('c' :: List.replicate 699 'c').length = 700
  rw [List.length_cons, List.length_replicate]

lemma msg3_length : msg3.length = 2104 := by
  show (sentA ++ '.' :: ' ' :: (sentB ++ '.' :: ' ' :: sentC)).length = 2104
  rw [List.length_append, List.length_cons, List.length_cons, List.length_append,
    List.length_cons, List.length_cons, sentA_length, sentB_length, sentC_length]

lemma endsA : endsWithDot sentA = false := endsWithDot_cons_replicate 699 'a' (by decide)

lemma endsB : endsWithDot sentB = false := endsWithDot_cons_replicate 699 'b' (by decide)

lemma neqAC : sentA ≠ sentC := by
  intro h
  simp only [sentA, sentC] at h
  injection h with h1 _
  exact absurd h1 (by decide)

lemma neqBC : sentB ≠ sentC := by
  intro h
  simp only [sentB, sentC] at h
  injection h with h1 _
  exact absurd h1 (by decide)

lemma sentences_msg3 : splitDotSpace msg3 = [sentA, sentB, sentC] := by
  unfold msg3
  rw [splitDotSpace_sep _ _ sentA_noDot, splitDotSpace_sep _ _ sentB_noDot,
    splitDotSpace_noDot _ sentC_noDot]

lemma stripA : pyStrip (sentA ++ ['.']) = sentA ++ ['.'] := by
  apply pyStrip_eq_self
  intro c hc
  rcases List.mem_append.mp hc with h | h
  · rw [sentA_mem h]; decide
  · simp at h; rw [h]; decide

lemma stripB : pyStrip (sentB ++ ['.']) = sentB ++ ['.'] := by
  apply pyStrip_eq_self
  intro c hc
  rcases List.mem_append.mp hc with h | h
  · rw [sentB_mem h]; decide
  · simp at h; rw [h]; decide

lemma stripC : pyStrip sentC = sentC := by
  apply pyStrip_eq_self
  intro c hc
  rw [sentC_mem hc]
  decide

lemma pySentenceA : pySentence sentC sentA = sentA ++ ['.'] := by
  unfold pySentence
  rw [if_pos ⟨endsA, neqAC⟩]

lemma pySentenceB : pySentence sentC sentB = sentB ++ ['.'] := by
  unfold pySentence
  rw [if_pos ⟨endsB, neqBC⟩]

lemma pySentenceC : pySentence sentC sentC = sentC := by
  unfold pySentence
  rw [if_neg (fun h => h.2 rfl)]

lemma packSentence_apply (max_length : Nat) (last : List Char) (chunks : List (List Char))
    (current : List Char) (sraw : List Char) :
    packSentence max_length last (chunks, current) sraw =
      if (current ++ pySentence last sraw).length > max_length then
        if current ≠ [] then (chunks ++ [pyStrip current], pySentence last sraw)
        else (splitSpace (pySentence last sraw)).foldl (packWord max_length) (chunks, current)
      else (chunks, if current = [] then pySentence last sraw
        else current ++ ' ' :: pySentence last sraw) := rfl

lemma packWord_apply (max_length : Nat) (chunks : List (List Char))
    (current : List Char) (w : List Char) :
    packWord max_length (chunks, current) w =
      if (current ++ ' ' :: w).length > max_length then
        if current ≠ [] then (chunks ++ [pyStrip current], w)
        else (chunks ++ [w.take max_length], w.drop max_length)
      else (chunks, if current = [] then w else current ++ ' ' :: w) := rfl

lemma flushTail_apply (chunks : List (List Char)) (current : List Char) :
    flushTail (chunks, current) =
      if current ≠ [] then chunks ++ [pyStrip current] else chunks := rfl

lemma dotChar_length : (['.'] : List Char).length = 1 := rfl

lemma appendDot_ne_nil (l : List Char) : l ++ ['.'] ≠ [] := fun h =>
  absurd (List.append_eq_nil.mp h).2 (List.cons_ne_nil _ _)

lemma sentC_ne_nil : sentC ≠ [] := List.cons_ne_nil 'c' (List.replicate 699 'c')

lemma pack1 : packSentence 1400 sentC ([], []) sentA = ([], sentA ++ ['.']) := by
  rw [packSentence_apply, pySentenceA]
  rw [if_neg (by
    rw [List.nil_append, List.length_append, sentA_length, dotChar_length]
    decide)]
  rw [if_pos rfl]

lemma pack2 : packSentence 1400 sentC ([], sentA ++ ['.']) sentB =
    ([sentA ++ ['.']], sentB ++ ['.']) := by
  rw [packSentence_apply, pySentenceB]
  rw [if_pos (by
    rw [List.length_append, List.length_append, List.length_append, sentA_length,
      sentB_length, dotChar_length]
    decide)]
  rw [if_pos (appendDot_ne_nil sentA), stripA, List.nil_append]

lemma pack3 : packSentence 1400 sentC ([sentA ++ ['.']], sentB ++ ['.']) sentC =
    ([sentA ++ ['.'], sentB ++ ['.']], sentC) := by
  rw [packSentence_apply, pySentenceC]
  rw [if_pos (by
    rw [List.length_append, List.length_append, sentB_length, sentC_length, dotChar_length]
    decide)]
  rw [if_pos (appendDot_ne_nil sentB), stripB]
  rfl

lemma split_msg3 : split_message msg3 1400 = [sentA ++ ['.'], sentB ++ ['.'], sentC] := by
  unfold split_message
  rw [if_neg (by rw [msg3_length]; decide)]
  rw [sentences_msg3]
  rw [show (List.getLast? [sentA, sentB, sentC]).getD [] = sentC from rfl]
  rw [List.foldl_cons, List.foldl_cons, List.foldl_cons, List.foldl_nil]
  rw [pack1, pack2, pack3]
  rw [flushTail_apply, if_pos sentC_ne_nil, stripC]
  rfl

/-! ### Computation of the send scenarios -/

lemma can_send_lim8 : can_send_message 0 lim8 = (true, lim8) := rfl

lemma can_send_lim9 : can_send_message 0 lim9 = (false, lim9) := rfl

lemma part_indicator_1_3 : part_indicator 1 3 = "[Part 1/3]\n".data := rfl

lemma part_indicator_1_3_length : (part_indicator 1 3).length = 11 := rfl

lemma cwiA : chunk_with_indicator 3 0 (sentA ++ ['.']) =
    part_indicator 1 3 ++ (sentA ++ ['.']) := by
  unfold chunk_with_indicator
  rw [show (0 : Nat) + 1 = 1 from rfl]
  rw [if_pos (by decide)]
  rw [if_neg (by
    rw [List.length_append, part_indicator_1_3_length, List.length_append,
      sentA_length, dotChar_length]
    decide)]

lemma send_msg3_lim8 :
    send_whatsapp_message chOK 0 lim8 dst0 msg3 =
      ⟨false, normalize_to dst0, [part_indicator 1 3 ++ (sentA ++ ['.'])], lim9⟩ := by
  unfold send_whatsapp_message
  rw [split_msg3]
  rw [show ([sentA ++ ['.'], sentB ++ ['.'], sentC] : List (List Char)).length = 3 from rfl]
  rw [send_loop]
  rw [if_pos (show (can_send_message 0 lim8).1 = true from rfl)]
  rw [cwiA]
  rw [if_pos (show chOK (part_indicator 1 3 ++ (sentA ++ ['.'])) = true from rfl)]
  rw [show increment_count (can_send_message 0 lim8).2 = lim9 from rfl]
  rw [List.nil_append]
  rw [send_loop]
  rw [if_neg (show ¬ (can_send_message 0 lim9).1 = true from by decide)]
  rw [show (can_send_message 0 lim9).2 = lim9 from rfl]

lemma send_msg3_lim9 :
    send_whatsapp_message chOK 0 lim9 dst0 msg3 = ⟨false, normalize_to dst0, [], lim9⟩ := by
  unfold send_whatsapp_message
  rw [split_msg3]
  rw [show ([sentA ++ ['.'], sentB ++ ['.'], sentC] : List (List Char)).length = 3 from rfl]
  rw [send_loop]
  rw [if_neg (show ¬ (can_send_message 0 lim9).1 = true from by decide)]
  rw [show (can_send_message 0 lim9).2 = lim9 from rfl]


/-! ### General facts about the rate limiter and the send loop -/

lemma can_send_daily_limit (now : Nat) (s : MessageRateLimiter) :
    (can_send_message now s).2.daily_limit = s.daily_limit := by
  unfold can_send_message
  split <;> rfl

lemma can_send_count_le (now : Nat) (s : MessageRateLimiter)
    (h : s.message_count ≤ s.daily_limit) :
    (can_send_message now s).2.message_count ≤ (can_send_message now s).2.daily_limit := by
  unfold can_send_message
  split
  · exact Nat.zero_le _
  · exact h

lemma can_send_true_lt (now : Nat) (s : MessageRateLimiter)
    (h : (can_send_message now s).1 = true) :
    (can_send_message now s).2.message_count < (can_send_message now s).2.daily_limit := by
  unfold can_send_message at h ⊢
  by_cases hc : now > s.reset_time
  · rw [if_pos hc] at h ⊢
    exact of_decide_eq_true h
  · rw [if_neg hc] at h ⊢
    exact of_decide_eq_true h

lemma increment_daily_limit (s : MessageRateLimiter) :
    (increment_count s).daily_limit = s.daily_limit := rfl

lemma increment_message_count (s : MessageRateLimiter) :
    (increment_count s).message_count = s.message_count + 1 := rfl

lemma send_loop_count_le (channel : List Char → Bool) (now : Nat) (dest : List Char)
    (n : Nat) (chunks : List (List Char)) :
    ∀ (i : Nat) (sent : List (List Char)) (lim : MessageRateLimiter),
      lim.message_count ≤ lim.daily_limit →
      (send_loop channel now dest n chunks i sent lim).limiter.message_count ≤
        (send_loop channel now dest n chunks i sent lim).limiter.daily_limit := by
  induction chunks with
  | nil =>
    intro i sent lim h
    rw [send_loop]
    exact h
  | cons chunk rest ih =>
    intro i sent lim h
    rw [send_loop]
    by_cases hg : (can_send_message now lim).1 = true
    · rw [if_pos hg]
      by_cases hch : channel (chunk_with_indicator n i chunk) = true
      · rw [if_pos hch]
        apply ih
        rw [increment_message_count, increment_daily_limit]
        exact can_send_true_lt now lim hg
      · rw [if_neg hch]
        exact can_send_count_le now lim h
    · rw [if_neg hg]
      exact can_send_count_le now lim h

lemma send_loop_result_iff (channel : List Char → Bool) (now : Nat) (dest : List Char)
    (n : Nat) (chunks : List (List Char)) :
    ∀ (i : Nat) (sent : List (List Char)) (lim : MessageRateLimiter),
      ((send_loop channel now dest n chunks i sent lim).result = true ↔
        (send_loop channel now dest n chunks i sent lim).sent.length =
          sent.length + chunks.length) := by
  induction chunks with
  | nil =>
    intro i sent lim
    rw [send_loop]
    simp
  | cons chunk rest ih =>
    intro i sent lim
    rw [send_loop]
    by_cases hg : (can_send_message now lim).1 = true
    · rw [if_pos hg]
      by_cases hch : channel (chunk_with_indicator n i chunk) = true
      · rw [if_pos hch]
        rw [ih]
        simp only [List.length_append, List.length_cons, List.length_nil]
        omega
      · rw [if_neg hch]
        simp only [List.length_cons]
        constructor
        · intro h
          exact absurd h (by simp)
        · intro h
          exact absurd h (by omega)
    · rw [if_neg hg]
      simp only [List.length_cons]
      constructor
      · intro h
        exact absurd h (by simp)
      · intro h
        exact absurd h (by omega)

lemma send_loop_sent_take (channel : List Char → Bool) (now : Nat) (dest : List Char)
    (n : Nat) (chunks : List (List Char)) :
    ∀ (i : Nat) (sent : List (List Char)) (lim : MessageRateLimiter),
      ∃ k, (send_loop channel now dest n chunks i sent lim).sent =
        sent ++ (((chunks.enumFrom i).map fun p => chunk_with_indicator n p.1 p.2).take k) := by
  induction chunks with
  | nil =>
    intro i sent lim
    refine ⟨0, ?_⟩
    rw [send_loop]
    simp
  | cons chunk rest ih =>
    intro i sent lim
    rw [send_loop]
    by_cases hg : (can_send_message now lim).1 = true
    · rw [if_pos hg]
      by_cases hch : channel (chunk_with_indicator n i chunk) = true
      · rw [if_pos hch]
        obtain ⟨k, hk⟩ := ih (i + 1) (sent ++ [chunk_with_indicator n i chunk])
          (increment_count (can_send_message now lim).2)
        refine ⟨k + 1, ?_⟩
        rw [hk, List.enumFrom_cons]
        simp [List.append_assoc]
      · rw [if_neg hch]
        exact ⟨0, by simp⟩
    · rw [if_neg hg]
      exact ⟨0, by simp⟩

/-! ### Claim theorems -/

/-- C1: the claim states that every chunk returned by split_message has
length at most maxLength. The code violates it: for the input "ab. cd"
with maxLength 5 the result is the single chunk "ab. cd" of length 6,
because the overflow check concatenates buffer and sentence without the
joining space that the buffer append then inserts. -/
theorem C1_bound_violated_eval :
    split_message "ab. cd".data 5 = ["ab. cd".data] ∧ ("ab. cd".data).length = 6 := by
  constructor
  · decide
  · rfl

/-- The chunk content with the separator spaces removed, used to compare
the content of the chunks against the content of the input. -/
def dropSpaces (l : List Char) : List Char := l.filter (fun c => c ≠ ' ')

/-- C2: the claim states that concatenating the chunks (normalizing the
removed separators) reproduces the input with sentence-terminator
periods preserved. The code violates it: on "ab. cd. ab" with maxLength
4 the chunks are ["ab", "cd.", "ab"] — the period of the FIRST "ab" is
dropped, because the code decides "is this the final fragment" by value
equality with the last fragment, and the first fragment happens to equal
the last one. Even after removing all separator spaces the contents
differ. -/
theorem C2_period_lost_eval :
    split_message "ab. cd. ab".data 4 = ["ab".data, "cd.".data, "ab".data]
    ∧ dropSpaces (List.flatten (split_message "ab. cd. ab".data 4)) ≠
        dropSpaces "ab. cd. ab".data := by
  constructor
  · decide
  · decide

/-- C3 counterexample: on the empty input split_message returns the
one-element sequence containing the empty string — an empty-string
chunk and not the empty sequence the claim requires. -/
theorem C3_counterexample_empty_input :
    split_message [] 1400 = [[]]
    ∧ [] ∈ split_message [] 1400
    ∧ split_message [] 1400 ≠ [] := by
  refine ⟨by decide, by decide, by decide⟩

/-- C3 (amended): for the empty input string, split_message returns the
one-element sequence consisting of the empty string (one blank chunk),
for every maxLength; it does not return an empty sequence. -/
theorem C3_empty_input_amended (max_length : Nat) :
    split_message [] max_length = [[]] := by
  unfold split_message
  rw [if_pos (show ([] : List Char).length ≤ max_length from Nat.zero_le _)]

/-- C4 (amended): starting with count 8 of daily limit 9 on a 3-chunk
message, send_whatsapp_message sends exactly chunk 1 (with its part
indicator; the count becomes 9), stops before sending chunk 2, leaves
the sent chunk sent with no rollback, and returns the bare boolean
false — which reports the failure but not the sent/total counts. -/
theorem C4_quota_midbatch :
    (split_message msg3 1400).length = 3
    ∧ send_whatsapp_message chOK 0 lim8 dst0 msg3 =
        ⟨false, normalize_to dst0, [part_indicator 1 3 ++ (sentA ++ ['.'])], ⟨9, 9, 1000⟩⟩ := by
  constructor
  · rw [split_msg3]
    rfl
  · exact send_msg3_lim8

/-- C4 counterexample: the claim says the result reports how many chunks
succeeded (QuotaExhausted(sentCount=1, totalCount=3)). It does not: the
run that sent one chunk (count 8 of 9 at start) and the run that sent
zero chunks (count 9 of 9 at start) return the very same value false,
so the returned value cannot carry the sent count. -/
theorem C4_result_carries_no_counts :
    (send_whatsapp_message chOK 0 lim8 dst0 msg3).result =
      (send_whatsapp_message chOK 0 lim9 dst0 msg3).result
    ∧ (send_whatsapp_message chOK 0 lim8 dst0 msg3).sent.length = 1
    ∧ (send_whatsapp_message chOK 0 lim9 dst0 msg3).sent.length = 0 := by
  refine ⟨?_, ?_, ?_⟩
  · rw [send_msg3_lim8, send_msg3_lim9]
  · rw [send_msg3_lim8]
    rfl
  · rw [send_msg3_lim9]
    rfl

/-- C5: when the batch has more than one chunk, the body handed to the
channel for the chunk at 0-based index i is exactly the part indicator
[Part i+1/n] followed by a newline and then the chunk body; when the
prefixed chunk would exceed 1500 characters, the chunk body (never the
indicator) is cut and an ellipsis appended so the sent string stays
within 1500; when n = 1 the chunk is sent untouched. The bodies the
send loop hands to the channel are exactly these transformed chunks, in
order (a prefix of them when the loop aborts early). -/
theorem C5_part_indicator_format :
    (∀ (i : Nat) (chunk : List Char), chunk_with_indicator 1 i chunk = chunk)
    ∧ (∀ (n i : Nat) (chunk : List Char), 1 < n →
        (part_indicator (i + 1) n).length + 3 ≤ 1500 →
        ((chunk_with_indicator n i chunk).length ≤ 1500
          ∧ ((part_indicator (i + 1) n ++ chunk).length ≤ 1500 →
              chunk_with_indicator n i chunk = part_indicator (i + 1) n ++ chunk)
          ∧ (1500 < (part_indicator (i + 1) n ++ chunk).length →
              chunk_with_indicator n i chunk = part_indicator (i + 1) n ++
                (chunk.take (1500 - (part_indicator (i + 1) n).length - 3) ++ "...".data))))
    ∧ (∀ (channel : List Char → Bool) (now : Nat) (lim : MessageRateLimiter)
        (dst m : List Char), ∃ k,
        (send_whatsapp_message channel now lim dst m).sent =
          (((split_message m 1400).enum).map
            (fun p => chunk_with_indicator (split_message m 1400).length p.1 p.2)).take k) := by
  refine ⟨?_, ?_, ?_⟩
  · intro i chunk
    unfold chunk_with_indicator
    rw [if_neg (by decide)]
  · intro n i chunk h1 h2
    unfold chunk_with_indicator
    rw [if_pos h1]
    by_cases hlen : (part_indicator (i + 1) n ++ chunk).length > 1500
    · rw [if_pos hlen]
      refine ⟨?_, fun hle => absurd hlen (by omega), fun _ => rfl⟩
      rw [List.length_append, List.length_append]
      rw [show ("...".data).length = 3 from rfl]
      have htk := List.length_take_le (1500 - (part_indicator (i + 1) n).length - 3) chunk
      omega
    · rw [if_neg hlen]
      exact ⟨by omega, fun _ => rfl, fun hgt => absurd hgt hlen⟩
  · intro channel now lim dst m
    unfold send_whatsapp_message
    obtain ⟨k, hk⟩ := send_loop_sent_take channel now (normalize_to dst)
      (split_message m 1400).length (split_message m 1400) 0 [] lim
    refine ⟨k, ?_⟩
    rw [hk, List.nil_append]
    rfl

/-- A 1600-character chunk, long enough to trigger the truncation path
of the part-indicator logic. -/
def longChunk : List Char := List.replicate 1600 'x'

/-- Witness for C5 at concrete inputs: no indicator for a singleton
batch, and for a 2-chunk batch with an over-long chunk the sent body is
the indicator plus the truncated body with ellipsis, within 1500. -/
theorem C5_witness :
    chunk_with_indicator 1 0 longChunk = longChunk
    ∧ (1 : Nat) < 2
    ∧ (part_indicator (0 + 1) 2).length + 3 ≤ 1500
    ∧ (chunk_with_indicator 2 0 longChunk).length ≤ 1500
    ∧ 1500 < (part_indicator (0 + 1) 2 ++ longChunk).length
    ∧ chunk_with_indicator 2 0 longChunk = part_indicator (0 + 1) 2 ++
        (longChunk.take (1500 - (part_indicator (0 + 1) 2).length - 3) ++ "...".data) := by
  have hlc : longChunk.length = 1600 := by
    show (List.replicate 1600 'x').length = 1600
    rw [List.length_replicate]
  have hgt : 1500 < (part_indicator (0 + 1) 2 ++ longChunk).length := by
    rw [List.length_append, hlc]
    decide
  have h := C5_part_indicator_format.2.1 2 0 longChunk (by decide) (by decide)
  exact ⟨C5_part_indicator_format.1 0 longChunk, by decide, by decide, h.1, hgt, h.2.2 hgt⟩

/-- C6: increment_count increases the count by exactly one; while the
window has not expired (now at or before reset_time) can_send_message
answers false whenever the count has reached the daily limit; once now
passes reset_time it resets the count to 0, moves reset_time to
now + one day, and (for a positive daily limit, as configured) answers
true. -/
theorem C6_quota_guard :
    ∀ (now : Nat) (s : MessageRateLimiter),
      (increment_count s).message_count = s.message_count + 1
      ∧ (now ≤ s.reset_time → s.daily_limit ≤ s.message_count →
          (can_send_message now s).1 = false)
      ∧ (s.reset_time < now →
          (can_send_message now s).2.message_count = 0
          ∧ (can_send_message now s).2.reset_time = now + oneDay
          ∧ (0 < s.daily_limit → (can_send_message now s).1 = true)) := by
  intro now s
  refine ⟨rfl, ?_, ?_⟩
  · intro h1 h2
    unfold can_send_message
    rw [if_neg (by omega)]
    exact decide_eq_false (by omega)
  · intro h
    unfold can_send_message
    rw [if_pos (by omega)]
    exact ⟨rfl, rfl, fun hpos => decide_eq_true hpos⟩

/-- Witness for C6 at concrete states: a count of 8 increments to 9; at
the limit (9 of 9) inside the window the guard says no; past the window
it resets the count, moves the window, and says yes. -/
theorem C6_quota_guard_witness :
    (increment_count lim8).message_count = 9
    ∧ (can_send_message 50 lim9).1 = false
    ∧ (can_send_message 1001 lim9).2.message_count = 0
    ∧ (can_send_message 1001 lim9).2.reset_time = 1001 + oneDay
    ∧ (can_send_message 1001 lim9).1 = true := by
  have h1 := (C6_quota_guard 50 lim9).2.1 (by decide) (by decide)
  have h2 := (C6_quota_guard 1001 lim9).2.2 (by decide)
  exact ⟨(C6_quota_guard 0 lim8).1, h1, h2.1, h2.2.1, h2.2.2 (by decide)⟩

/-- C7: for any single unbroken 2000-character token (no whitespace, no
periods) and maxLength 1400, split_message force-splits it into exactly
the first 1400 characters followed by the remaining 600 characters, in
that order, both within the bound. -/
theorem C7_force_split :
    ∀ (token : List Char), token.length = 2000 →
      (∀ c ∈ token, isPySpace c = false ∧ c ≠ '.') →
      split_message token 1400 = [token.take 1400, token.drop 1400]
      ∧ (token.take 1400).length = 1400 ∧ (token.drop 1400).length = 600 := by
  intro token hlen hc
  have hnd : ∀ c ∈ token, c ≠ '.' := fun c h => (hc c h).2
  have hps : ∀ c ∈ token, isPySpace c = false := fun c h => (hc c h).1
  have hns : ∀ c ∈ token, c ≠ ' ' := by
    intro c h he
    have h2 := (hc c h).1
    rw [he] at h2
    exact absurd h2 (by decide)
  refine ⟨?_, ?_, ?_⟩
  · unfold split_message
    rw [if_neg (by omega)]
    rw [splitDotSpace_noDot token hnd]
    rw [show (List.getLast? [token]).getD [] = token from rfl]
    rw [List.foldl_cons, List.foldl_nil]
    rw [packSentence_apply]
    rw [show pySentence token token = token from by
      unfold pySentence
      exact if_neg (fun hh => hh.2 rfl)]
    rw [if_pos (show (([] : List Char) ++ token).length > 1400 from by
      rw [List.nil_append]
      omega)]
    rw [if_neg (show ¬ (([] : List Char) ≠ []) from fun hne => hne rfl)]
    rw [splitSpace_noSpace token hns]
    rw [List.foldl_cons, List.foldl_nil, packWord_apply]
    rw [if_pos (show (([] : List Char) ++ ' ' :: token).length > 1400 from by
      rw [List.nil_append, List.length_cons]
      omega)]
    rw [if_neg (show ¬ (([] : List Char) ≠ []) from fun hne => hne rfl)]
    rw [List.nil_append, flushTail_apply]
    rw [if_pos (show token.drop 1400 ≠ [] from
      List.ne_nil_of_length_pos (by rw [List.length_drop, hlen]; decide))]
    rw [pyStrip_eq_self _ (fun c h => hps c (List.mem_of_mem_drop h))]
    rfl
  · rw [List.length_take, hlen]
    decide
  · rw [List.length_drop, hlen]

/-- A single unbroken 2000-character token. -/
def token2000 : List Char := List.replicate 2000 'a'

/-- Witness for C7 at the 2000 letters a token: a 1400-character chunk
followed by a 600-character chunk. -/
theorem C7_witness :
    token2000.length = 2000
    ∧ split_message token2000 1400 = [token2000.take 1400, token2000.drop 1400]
    ∧ (token2000.take 1400).length = 1400 ∧ (token2000.drop 1400).length = 600 := by
  have hlen : token2000.length = 2000 := by
    show (List.replicate 2000 'a').length = 2000
    rw [List.length_replicate]
  have hc : ∀ c ∈ token2000, isPySpace c = false ∧ c ≠ '.' := by
    intro c h
    have h2 : c = 'a' := (List.mem_replicate.mp h).2
    rw [h2]
    exact ⟨rfl, by decide⟩
  have h := C7_force_split token2000 hlen hc
  exact ⟨hlen, h.1, h.2.1, h.2.2⟩

/-- C8: a text that already fits in maxLength is returned as the single
chunk equal to the text, and the dispatcher sends that single chunk
as-is — no part indicator — recording one send and returning true (full
success), provided the quota check passes and the channel accepts. -/
theorem C8_single_chunk :
    (∀ (m : List Char) (max_length : Nat), m.length ≤ max_length →
      split_message m max_length = [m])
    ∧ (∀ (channel : List Char → Bool) (now : Nat) (s : MessageRateLimiter)
        (dst m : List Char), m.length ≤ 1400 →
        (can_send_message now s).1 = true → channel m = true →
        send_whatsapp_message channel now s dst m =
          ⟨true, normalize_to dst, [m], increment_count (can_send_message now s).2⟩) := by
  constructor
  · intro m L h
    unfold split_message
    rw [if_pos h]
  · intro channel now s dst m hm hcan hch
    unfold send_whatsapp_message
    rw [show split_message m 1400 = [m] from by
      unfold split_message
      rw [if_pos hm]]
    rw [show ([m] : List (List Char)).length = 1 from rfl]
    rw [send_loop]
    rw [if_pos hcan]
    rw [show chunk_with_indicator 1 0 m = m from by
      unfold chunk_with_indicator
      rw [if_neg (by decide)]]
    rw [if_pos hch]
    rw [send_loop]
    rw [List.nil_append]

/-- A 1399-character message, under the 1400 budget. -/
def msg1399 : List Char := List.replicate 1399 'x'

/-- Witness for C8: the 1399-character text is returned as one chunk and
sent untouched with a true result, the count moving from 0 to 1. -/
theorem C8_witness :
    msg1399.length ≤ 1400
    ∧ split_message msg1399 1400 = [msg1399]
    ∧ send_whatsapp_message chOK 0 ⟨9, 0, 1000⟩ dst0 msg1399 =
        ⟨true, normalize_to dst0, [msg1399], ⟨9, 1, 1000⟩⟩ := by
  have hlen : msg1399.length = 1399 := by
    show (List.replicate 1399 'x').length = 1399
    rw [List.length_replicate]
  have hle : msg1399.length ≤ 1400 := by rw [hlen]; decide
  exact ⟨hle, C8_single_chunk.1 msg1399 1400 hle,
    C8_single_chunk.2 chOK 0 ⟨9, 0, 1000⟩ dst0 msg1399 hle rfl rfl⟩

/-- A channel-failure run of the three-chunk scenario: the first create
call raises, the try/except turns this into a false return, nothing is
recorded as sent and the count is unchanged. -/
lemma send_msg3_chfail :
    send_whatsapp_message chFail 0 ⟨9, 0, 1000⟩ dst0 msg3 =
      ⟨false, normalize_to dst0, [], ⟨9, 0, 1000⟩⟩ := by
  unfold send_whatsapp_message
  rw [split_msg3]
  rw [show ([sentA ++ ['.'], sentB ++ ['.'], sentC] : List (List Char)).length = 3 from rfl]
  rw [send_loop]
  rw [if_pos (show (can_send_message 0 ⟨9, 0, 1000⟩).1 = true from rfl)]
  rw [cwiA]
  rw [if_neg (show ¬ chFail (part_indicator 1 3 ++ (sentA ++ ['.'])) = true from by decide)]
  rw [show (can_send_message 0 ⟨9, 0, 1000⟩).2 = ⟨9, 0, 1000⟩ from rfl]

/-- C9: send_whatsapp_message always returns a bare boolean (the
embedding is total: quota exhaustion and channel failures are absorbed
into the returned value, never propagated): it returns true exactly
when every chunk of the split was handed to the channel, and false
otherwise — as the concrete runs show, the same false whether one chunk,
zero chunks, or a channel error occurred, so the value carries no count
of the chunks that succeeded. -/
theorem C9_boolean_result :
    (∀ (channel : List Char → Bool) (now : Nat) (lim : MessageRateLimiter)
        (dst m : List Char),
        ((send_whatsapp_message channel now lim dst m).result = true ↔
          (send_whatsapp_message channel now lim dst m).sent.length =
            (split_message m 1400).length))
    ∧ (send_whatsapp_message chOK 0 lim8 dst0 msg3).result = false
    ∧ (send_whatsapp_message chOK 0 lim9 dst0 msg3).result = false
    ∧ (send_whatsapp_message chFail 0 ⟨9, 0, 1000⟩ dst0 msg3).result = false
    ∧ (send_whatsapp_message chOK 0 lim8 dst0 msg3).sent.length = 1
    ∧ (send_whatsapp_message chOK 0 lim9 dst0 msg3).sent.length = 0 := by
  refine ⟨?_, ?_, ?_, ?_, ?_, ?_⟩
  · intro channel now lim dst m
    unfold send_whatsapp_message
    have h := send_loop_result_iff channel now (normalize_to dst)
      (split_message m 1400).length (split_message m 1400) 0 [] lim
    simpa using h
  · rw [send_msg3_lim8]
  · rw [send_msg3_lim9]
  · rw [send_msg3_chfail]
  · rw [send_msg3_lim8]
    rfl
  · rw [send_msg3_lim9]
    rfl

/-- C10: the count never exceeds the daily limit: an increment is only
ever applied to a state on which can_send_message just answered true
(count strictly under the limit), so it lands at or under the limit;
and a whole send_whatsapp_message call keeps the invariant
count at most limit from start to finish. -/
theorem C10_count_never_exceeds_limit :
    (∀ (now : Nat) (s : MessageRateLimiter),
        (can_send_message now s).1 = true →
        (increment_count (can_send_message now s).2).message_count ≤
          (increment_count (can_send_message now s).2).daily_limit)
    ∧ (∀ (channel : List Char → Bool) (now : Nat) (s : MessageRateLimiter)
        (dst m : List Char), s.message_count ≤ s.daily_limit →
        (send_whatsapp_message channel now s dst m).limiter.message_count ≤
          (send_whatsapp_message channel now s dst m).limiter.daily_limit) := by
  constructor
  · intro now s h
    rw [increment_message_count, increment_daily_limit]
    exact can_send_true_lt now s h
  · intro channel now s dst m h
    unfold send_whatsapp_message
    exact send_loop_count_le channel now (normalize_to dst)
      (split_message m 1400).length (split_message m 1400) 0 [] s h

/-- Witness for C10 at concrete states: incrementing after a passed
check at count 8 of 9 stays within the limit, and the mid-batch
quota-exhaustion run ends at count 9 of limit 9, not beyond. -/
theorem C10_witness :
    (can_send_message 0 lim8).1 = true
    ∧ (increment_count (can_send_message 0 lim8).2).message_count ≤
        (increment_count (can_send_message 0 lim8).2).daily_limit
    ∧ lim8.message_count ≤ lim8.daily_limit
    ∧ (send_whatsapp_message chOK 0 lim8 dst0 msg3).limiter.message_count ≤
        (send_whatsapp_message chOK 0 lim8 dst0 msg3).limiter.daily_limit := by
  exact ⟨rfl, C10_count_never_exceeds_limit.1 0 lim8 rfl, by decide,
    C10_count_never_exceeds_limit.2 chOK 0 lim8 dst0 msg3 (by decide)⟩
